import Mathlib

/-!
Verification of the traa-py binding layer specification.

The repository ships the tests (`src/tests/test_traa.py`), packaging
(`src/setup.py`, `src/build_all.py`), the installation check
(`src/tools/test_install.py`) and examples; the `traa` package itself
(value types, library resolver, enumerator, capturer) is not present in
`src/`, so those components are modelled here from the specification's
words, and checked against the behaviour the repository's own tests pin
down.  Machine integers are modelled as `Int`; optional fields as
`Option`; fallible operations return `Except`.
-/

set_option autoImplicit false

namespace Traa

/-- Modelled from the spec: `Size` holds `width, height`; the invariant
(both nonnegative) is enforced by the validating constructor `Size.make`
below, matching "construction with a negative value fails validation". -/
structure Size where
  width : Int
  height : Int
  deriving DecidableEq, Repr

/-- Modelled from the spec: the validating constructor of `Size`.  A
negative dimension fails validation immediately (Python raises
`ValueError`); the failure is represented as `Except.error` carrying the
validation message. -/
def Size.make (w h : Int) : Except String Size :=
  if w < 0 ∨ h < 0 then .error "ValueError: dimensions must be non-negative"
  else .ok ⟨w, h⟩

/-- Modelled from the spec: canonical text form of a `Size` is
`"{width}x{height}"` (written here by concatenation). -/
def Size.text (s : Size) : String :=
  toString s.width ++ "x" ++ toString s.height

/-- Modelled from the spec: the native fixed-layout struct for `Size`
(two integers). -/
structure CSize where
  width : Int
  height : Int
  deriving DecidableEq, Repr

/-- Modelled from the spec: conversion to the native form is a pure,
total, order-preserving field mapping. -/
def Size.to_c_size (s : Size) : CSize := ⟨s.width, s.height⟩

/-- Modelled from the spec: conversion back from the native form is a
pure, total, order-preserving field mapping. -/
def Size.from_c_size (c : CSize) : Size := ⟨c.width, c.height⟩

/-- Modelled from the spec: `Rect` holds `left, top, right, bottom`; the
invariants `right ≥ left`, `bottom ≥ top` are enforced by the validating
constructor `Rect.make` below. -/
structure Rect where
  left : Int
  top : Int
  right : Int
  bottom : Int
  deriving DecidableEq, Repr

/-- Modelled from the spec: the validating constructor of `Rect`;
violated bounds fail validation at construction (Python `ValueError`). -/
def Rect.make (l t r b : Int) : Except String Rect :=
  if r < l ∨ b < t then .error "ValueError: invalid rectangle bounds"
  else .ok ⟨l, t, r, b⟩

/-- Modelled from the spec: derived property `width = right - left`. -/
def Rect.width (r : Rect) : Int := r.right - r.left

/-- Modelled from the spec: derived property `height = bottom - top`. -/
def Rect.height (r : Rect) : Int := r.bottom - r.top

/-- Modelled from the spec: derived property `x = left`. -/
def Rect.x (r : Rect) : Int := r.left

/-- Modelled from the spec: derived property `y = top`. -/
def Rect.y (r : Rect) : Int := r.top

/-- Modelled from the spec: derived property `center_x = left + width/2`
(integer division; the width of a valid rectangle is nonnegative). -/
def Rect.center_x (r : Rect) : Int := r.left + r.width / 2

/-- Modelled from the spec: derived property `center_y = top + height/2`. -/
def Rect.center_y (r : Rect) : Int := r.top + r.height / 2

/-- Modelled from the spec: derived property `area = width * height`. -/
def Rect.area (r : Rect) : Int := r.width * r.height

/-- Modelled from the spec: the native fixed-layout struct for `Rect`
(four integers). -/
structure CRect where
  left : Int
  top : Int
  right : Int
  bottom : Int
  deriving DecidableEq, Repr

/-- Modelled from the spec: `Rect` to native form, a pure order-preserving
field mapping. -/
def Rect.to_c_rect (r : Rect) : CRect := ⟨r.left, r.top, r.right, r.bottom⟩

/-- Modelled from the spec: native form back to `Rect`, a pure
order-preserving field mapping. -/
def Rect.from_c_rect (c : CRect) : Rect := ⟨c.left, c.top, c.right, c.bottom⟩

/-- Modelled from the spec: structured native error, carrying `code` and
`message`. -/
structure Error where
  code : Int
  message : String
  deriving DecidableEq, Repr

/-- Modelled from the spec: the default message supplied when an `Error`
is constructed from a code alone. -/
def defaultErrorMessage : String := "Unknown error"

/-- Modelled from the spec: constructing an `Error` with only a code
supplies the default message. -/
def Error.ofCode (c : Int) : Error := ⟨c, defaultErrorMessage⟩

/-- Modelled from the spec: the code-to-message table lives alongside the
native layer (not in `src/`); an unrecognized code falls back to the
generic default message, which is all the repository's tests exercise. -/
def messageForCode (_ : Int) : String := defaultErrorMessage

/-- Modelled from the spec: the error mapper translates a non-success
native status code into an `Error` carrying that code and a looked-up
human-readable message. -/
def errorFromCode (c : Int) : Error := ⟨c, messageForCode c⟩

/-- Modelled from the spec: structural equality of errors, true exactly
when both code and message match (Python `__eq__`). -/
def Error.beq (a b : Error) : Bool :=
  a.code == b.code && a.message == b.message

/-- Modelled from the spec: the hash of an `Error` is computed from the
`(code, message)` pair, so it is consistent with structural equality
(Python `__hash__` over the same fields). -/
def Error.hashVal (e : Error) : UInt64 :=
  mixHash (hash e.code) (hash e.message)

/-- Modelled from the spec: text form asserted by `test_error_creation`,
`"TRAA Error {code}: {message}"`. -/
def Error.text (e : Error) : String :=
  "TRAA Error " ++ toString e.code ++ ": " ++ e.message

/-- Single-quote character used by the `repr` form of `Error`. -/
def squote : String := String.singleton (Char.ofNat 39)

/-- Modelled from the spec: repr form asserted by `test_error_creation`,
`"Error({code}, squote{message}squote)"` with a single-quoted message. -/
def Error.reprText (e : Error) : String :=
  "Error(" ++ toString e.code ++ ", " ++ squote ++ e.message ++ squote ++ ")"

/-- Modelled from the spec: the `NONE` flag, value 0. -/
def FLAG_NONE : Nat := 0

/-- Modelled from the spec: `IGNORE_SCREEN = 1 <<< 0`, excludes displays. -/
def IGNORE_SCREEN : Nat := 1

/-- Modelled from the spec: `IGNORE_WINDOW = 1 <<< 1`, excludes windows. -/
def IGNORE_WINDOW : Nat := 2

/-- Modelled from the spec: `IGNORE_MINIMIZED = 1 <<< 2`, excludes
minimized windows. -/
def IGNORE_MINIMIZED : Nat := 4

/-- Modelled from the spec: a pixel buffer as returned across the FFI
boundary, described by its own shape — height-major rows, columns, and a
channel count that is self-describing from the shape. -/
structure PixelBuffer where
  rows : Nat
  cols : Nat
  channels : Nat
  deriving DecidableEq, Repr

/-- Modelled from the spec: the native source-descriptor struct, with the
fields enumerated in the data model; the window-only and display-only
fields are all present at the ABI level and the binding layer decides
which to expose. -/
structure NativeSourceInfo where
  src_id : Int
  is_window : Bool
  title : String
  rect : CRect
  process_path : String
  is_minimized : Bool
  is_primary : Bool
  thumbnail : Option PixelBuffer
  icon : Option PixelBuffer
  deriving DecidableEq, Repr

/-- Modelled from the spec: the platform-neutral `ScreenSourceInfo`
exposed to callers, with explicit optional fields (`process_path` and
`is_minimized` only for windows; `is_primary` only for displays;
images only when produced). -/
structure ScreenSourceInfo where
  id : Int
  is_window : Bool
  title : String
  rect : Rect
  process_path : Option String
  is_minimized : Option Bool
  is_primary : Option Bool
  thumbnail_data : Option PixelBuffer
  icon_data : Option PixelBuffer
  deriving DecidableEq, Repr

/-- Modelled from the spec: the opaque native capture library, a black box
behind a fixed C-style ABI, exposing source enumeration and snapshot
rendering; each returns either a non-success status code or a result. -/
structure NativeLib where
  enumSources : Nat → CSize → CSize → Except Int (List NativeSourceInfo)
  snapshot : Int → CSize → Except Int (PixelBuffer × CSize)

/-- Modelled from the spec: marshalling one native source descriptor into
the platform-neutral form — a field copy that makes the window-only
fields absent on displays and the display-only field absent on windows. -/
def marshalSource (n : NativeSourceInfo) : ScreenSourceInfo :=
  { id := n.src_id
    is_window := n.is_window
    title := n.title
    rect := Rect.from_c_rect n.rect
    process_path := if n.is_window then some n.process_path else none
    is_minimized := if n.is_window then some n.is_minimized else none
    is_primary := if n.is_window then none else some n.is_primary
    thumbnail_data := n.thumbnail
    icon_data := n.icon }

/-- Modelled from the spec: `enum_screen_sources` marshals the requested
sizes into native form, invokes the native enumeration, and marshals the
result back, raising a structured `Error` through the error mapper on a
non-success status. -/
def enum_screen_sources (lib : NativeLib) (external_flags : Nat)
    (thumbnail_size icon_size : Size) : Except Error (List ScreenSourceInfo) :=
  match lib.enumSources external_flags thumbnail_size.to_c_size icon_size.to_c_size with
  | .error c => .error (errorFromCode c)
  | .ok l => .ok (l.map marshalSource)

/-- Modelled from the spec: the two disjoint error families of a capture
call — a locally raised validation failure (Python `ValueError`), never
disguised as a native error, and a structured native `Error`. -/
inductive CaptureError where
  | validation : String → CaptureError
  | native : Error → CaptureError
  deriving DecidableEq, Repr

/-- Modelled from the spec: `create_snapshot` validates that both
requested dimensions are strictly positive before any native call, then
invokes the native snapshot renderer and returns the pixel buffer with
the negotiated actual size; a non-success status becomes a native
`Error`. -/
def create_snapshot (lib : NativeLib) (source_id : Int) (size : Size) :
    Except CaptureError (PixelBuffer × Size) :=
  if size.width ≤ 0 ∨ size.height ≤ 0 then
    .error (.validation "ValueError: snapshot size must be positive")
  else
    match lib.snapshot source_id size.to_c_size with
    | .error c => .error (.native (errorFromCode c))
    | .ok (buf, actual) => .ok (buf, Size.from_c_size actual)

/-- Modelled from the spec: the contract of the native snapshot renderer
(§4.4) — on success the buffer's row/column extents equal the negotiated
actual size exactly and the channel count is 1, 3 or 4. -/
def SnapshotContract (lib : NativeLib) : Prop :=
  ∀ (source_id : Int) (csz : CSize) (buf : PixelBuffer) (actual : CSize),
    lib.snapshot source_id csz = .ok (buf, actual) →
      (buf.rows : Int) = actual.height ∧ (buf.cols : Int) = actual.width ∧
      (buf.channels = 1 ∨ buf.channels = 3 ∨ buf.channels = 4)

/-- Modelled from the spec: the geometric acceptance bound (§4.3) for a
produced thumbnail against the requested box — both dimensions positive
and at most `1.5×` the requested ones, and the width/height ratio within
`0.5` of the requested ratio. -/
def ThumbOK (tsz : CSize) (buf : PixelBuffer) : Prop :=
  0 < buf.rows ∧ 0 < buf.cols ∧
  (buf.rows : ℚ) ≤ 3 / 2 * (tsz.height : ℚ) ∧
  (buf.cols : ℚ) ≤ 3 / 2 * (tsz.width : ℚ) ∧
  |(buf.cols : ℚ) / (buf.rows : ℚ) - (tsz.width : ℚ) / (tsz.height : ℚ)| ≤ 1 / 2

/-- Modelled from the spec: the contract of the native renderer for
thumbnails attached during enumeration — every thumbnail it produces for
a positive requested box satisfies the geometric acceptance bound. -/
def ThumbContract (lib : NativeLib) : Prop :=
  ∀ (flags : Nat) (tsz isz : CSize) (l : List NativeSourceInfo),
    0 < tsz.width → 0 < tsz.height →
    lib.enumSources flags tsz isz = .ok l →
    ∀ n ∈ l, ∀ buf, n.thumbnail = some buf → ThumbOK tsz buf

/-- Modelled from the spec: the filtering contract of the native
enumeration (§4.3) — with `IGNORE_WINDOW` set no returned source is a
window, and with `IGNORE_SCREEN` set every returned source is a window. -/
def FlagContract (lib : NativeLib) : Prop :=
  ∀ (flags : Nat) (tsz isz : CSize) (l : List NativeSourceInfo),
    lib.enumSources flags tsz isz = .ok l →
      (flags &&& IGNORE_WINDOW ≠ 0 → ∀ n ∈ l, n.is_window = false) ∧
      (flags &&& IGNORE_SCREEN ≠ 0 → ∀ n ∈ l, n.is_window = true)

/-- Demo native thumbnail renderer: produces a thumbnail only for the
requested box `160x120`, at exactly the requested dimensions with RGBA
channels; used to exhibit a concrete native layer meeting its contract. -/
def demoThumb (tsz : CSize) : Option PixelBuffer :=
  if tsz.width = 160 ∧ tsz.height = 120 then some ⟨120, 160, 4⟩ else none

/-- Demo native descriptor of a primary display. -/
def demoDisplay (tsz : CSize) : NativeSourceInfo :=
  { src_id := 1
    is_window := false
    title := "Display 1"
    rect := ⟨0, 0, 1920, 1080⟩
    process_path := ""
    is_minimized := false
    is_primary := true
    thumbnail := demoThumb tsz
    icon := none }

/-- Demo native descriptor of an application window. -/
def demoWindow (tsz : CSize) : NativeSourceInfo :=
  { src_id := 2
    is_window := true
    title := "Demo Window"
    rect := ⟨10, 20, 110, 220⟩
    process_path := "/usr/bin/demo"
    is_minimized := false
    is_primary := false
    thumbnail := demoThumb tsz
    icon := none }

/-- Demo native enumeration honouring the `IGNORE_SCREEN` and
`IGNORE_WINDOW` filter bits. -/
def demoEnum (flags : Nat) (tsz _isz : CSize) : Except Int (List NativeSourceInfo) :=
  .ok ((if flags &&& IGNORE_SCREEN = 0 then [demoDisplay tsz] else []) ++
       (if flags &&& IGNORE_WINDOW = 0 then [demoWindow tsz] else []))

/-- Demo native snapshot renderer: fails with status code 3 for the
unknown id 99999, otherwise renders an `800x600` RGBA buffer and reports
that actual size. -/
def demoSnapshot (source_id : Int) (_csz : CSize) : Except Int (PixelBuffer × CSize) :=
  if source_id = 99999 then .error 3
  else .ok (⟨600, 800, 4⟩, ⟨800, 600⟩)

/-- Demo native library assembling the pieces above. -/
def demoLib : NativeLib := ⟨demoEnum, demoSnapshot⟩

/-- Demo library meets the snapshot contract of §4.4. -/
theorem demoLib_snapshot_contract : SnapshotContract demoLib := by
  intro sid csz buf actual h
  simp only [demoLib, demoSnapshot] at h
  split at h
  · exact Except.noConfusion h
  · injection h with h
    injection h with hb ha
    subst hb; subst ha
    refine ⟨rfl, rfl, Or.inr (Or.inr rfl)⟩

/-- Demo library meets the thumbnail contract of §4.3. -/
theorem demoLib_thumb_contract : ThumbContract demoLib := by
  intro flags tsz isz l _hw _hh h n hn buf hb
  simp only [demoLib, demoEnum] at h
  injection h with h
  subst h
  have hthumb : n.thumbnail = demoThumb tsz := by
    rcases List.mem_append.mp hn with hm | hm
    · split at hm
      · rw [List.mem_singleton] at hm
        subst hm; rfl
      · cases hm
    · split at hm
      · rw [List.mem_singleton] at hm
        subst hm; rfl
      · cases hm
  rw [hthumb] at hb
  unfold demoThumb at hb
  split at hb
  · rename_i hcond
    injection hb with hb
    subst hb
    obtain ⟨hw160, hh120⟩ := hcond
    refine ⟨by decide, by decide, ?_, ?_, ?_⟩
    · rw [hh120]; norm_num
    · rw [hw160]; norm_num
    · rw [hw160, hh120]; norm_num
  · exact Option.noConfusion hb

/-- Demo library meets the filtering contract of §4.3. -/
theorem demoLib_flag_contract : FlagContract demoLib := by
  intro flags tsz isz l h
  simp only [demoLib, demoEnum] at h
  injection h with h
  subst h
  constructor
  · intro hW n hn
    have h2 : ¬ (flags &&& IGNORE_WINDOW = 0) := hW
    rcases List.mem_append.mp hn with hm | hm
    · split at hm
      · rw [List.mem_singleton] at hm
        subst hm; rfl
      · cases hm
    · rw [if_neg h2] at hm
      cases hm
  · intro hS n hn
    have h1 : ¬ (flags &&& IGNORE_SCREEN = 0) := hS
    rcases List.mem_append.mp hn with hm | hm
    · rw [if_neg h1] at hm
      cases hm
    · split at hm
      · rw [List.mem_singleton] at hm
        subst hm; rfl
      · cases hm

/-- Mirrors `check_library_files` in `src/tools/test_install.py` for the
OS/architecture to library-path mapping, together with the resolver
behaviour of §4.2/§6 (the resolver itself is not in `src/`): macOS uses
one universal `dylib` shared by its two supported architectures `x86_64`
and `arm64` (the install checker is arch-blind on macOS, but §6 lists
exactly those two and §4.2 makes every unsupported combination a hard
failure), Windows maps `amd64`, `x86_64` and `arm64` to the `x64` binary
and `x86` to its own, Linux maps `x86_64`/`amd64` to `x64` and
`aarch64`/`arm64` to `arm64`; anything else is unsupported and yields no
path (a hard failure). -/
def libraryRelPath (system machine : String) : Option String :=
  if system = "darwin" then
    if machine = "x86_64" ∨ machine = "arm64" then
      some "libs/darwin/libtraa.dylib"
    else none
  else if system = "windows" then
    if machine = "amd64" ∨ machine = "x86_64" ∨ machine = "arm64" then
      some "libs/windows/x64/traa.dll"
    else if machine = "x86" then
      some "libs/windows/x86/traa.dll"
    else none
  else if system = "linux" then
    if machine = "x86_64" ∨ machine = "amd64" then
      some "libs/linux/x64/libtraa.so"
    else if machine = "aarch64" ∨ machine = "arm64" then
      some "libs/linux/arm64/libtraa.so"
    else none
  else none

/-- Mirrors `get_platform_package_data` in `src/setup.py`: the
platform-specific package-data glob bundled into each wheel; an unknown
target platform gets no library. -/
def get_platform_package_data (target : String) : List String :=
  if target = "windows_x64" then ["libs/windows/x64/*.dll"]
  else if target = "windows_x86" then ["libs/windows/x86/*.dll"]
  else if target = "windows_arm64" then ["libs/windows/x64/*.dll"]
  else if target = "darwin_x64" then ["libs/darwin/*.dylib"]
  else if target = "darwin_arm64" then ["libs/darwin/*.dylib"]
  else if target = "linux_x64" then ["libs/linux/x64/*.so"]
  else if target = "linux_arm64" then ["libs/linux/arm64/*.so"]
  else []

/-- Claim C6: for all integers `w, h` with `w ≥ 0` and `h ≥ 0`,
`Size(w, h)` constructs successfully with `width == w` and `height == h`
(including `w = h = 0`); for any `w < 0` or `h < 0` construction fails
validation immediately; and the canonical text form of a `Size` is
`"{width}x{height}"`. -/
theorem size_construction_spec (w h : Int) :
    (0 ≤ w → 0 ≤ h → Size.make w h = .ok ⟨w, h⟩ ∧
      (Size.mk w h).width = w ∧ (Size.mk w h).height = h) ∧
    (w < 0 ∨ h < 0 → ∃ msg, Size.make w h = .error msg) ∧
    Size.text ⟨w, h⟩ = toString w ++ "x" ++ toString h := by
  refine ⟨?_, ?_, rfl⟩
  · intro hw hh
    have hneg : ¬ (w < 0 ∨ h < 0) := by push_neg; exact ⟨hw, hh⟩
    exact ⟨by unfold Size.make; rw [if_neg hneg], rfl, rfl⟩
  · intro hbad
    exact ⟨_, by unfold Size.make; rw [if_pos hbad]⟩

/-- Witness for C6 at the concrete inputs of `test_size_creation`. -/
theorem size_construction_spec_witness :
    Size.make 1920 1080 = .ok ⟨1920, 1080⟩ ∧
    (∃ msg, Size.make (-1) 100 = .error msg) ∧
    (∃ msg, Size.make 100 (-1) = .error msg) ∧
    Size.text ⟨1920, 1080⟩ = "1920x1080" :=
  ⟨((size_construction_spec 1920 1080).1 (by decide) (by decide)).1,
   (size_construction_spec (-1) 100).2.1 (Or.inl (by decide)),
   (size_construction_spec 100 (-1)).2.1 (Or.inr (by decide)),
   by rw [(size_construction_spec 1920 1080).2.2]; decide⟩

/-- Claim C7: for all integers `l, t, r, b` with `r ≥ l` and `b ≥ t`,
`Rect(l, t, r, b)` constructs successfully with derived properties
`width = r - l`, `height = b - t`, `x = l`, `y = t`,
`center_x = l + width/2`, `center_y = t + height/2` and
`area = width * height`; constructing with `r < l` or `b < t` fails
validation immediately. -/
theorem rect_construction_spec (l t r b : Int) :
    (l ≤ r → t ≤ b → Rect.make l t r b = .ok ⟨l, t, r, b⟩ ∧
      Rect.width ⟨l, t, r, b⟩ = r - l ∧
      Rect.height ⟨l, t, r, b⟩ = b - t ∧
      Rect.x ⟨l, t, r, b⟩ = l ∧
      Rect.y ⟨l, t, r, b⟩ = t ∧
      Rect.center_x ⟨l, t, r, b⟩ = l + (r - l) / 2 ∧
      Rect.center_y ⟨l, t, r, b⟩ = t + (b - t) / 2 ∧
      Rect.area ⟨l, t, r, b⟩ = (r - l) * (b - t)) ∧
    (r < l ∨ b < t → ∃ msg, Rect.make l t r b = .error msg) := by
  constructor
  · intro hlr htb
    have hneg : ¬ (r < l ∨ b < t) := by push_neg; exact ⟨hlr, htb⟩
    exact ⟨by unfold Rect.make; rw [if_neg hneg], rfl, rfl, rfl, rfl, rfl, rfl, rfl⟩
  · intro hbad
    exact ⟨_, by unfold Rect.make; rw [if_pos hbad]⟩

/-- Witness for C7 at the concrete inputs of `test_rect_creation` and
`test_rect_properties`. -/
theorem rect_construction_spec_witness :
    Rect.make 10 20 110 220 = .ok ⟨10, 20, 110, 220⟩ ∧
    Rect.width ⟨10, 20, 110, 220⟩ = 100 ∧
    Rect.height ⟨10, 20, 110, 220⟩ = 200 ∧
    Rect.x ⟨10, 20, 110, 220⟩ = 10 ∧
    Rect.y ⟨10, 20, 110, 220⟩ = 20 ∧
    Rect.center_x ⟨10, 20, 110, 220⟩ = 60 ∧
    Rect.center_y ⟨10, 20, 110, 220⟩ = 120 ∧
    Rect.area ⟨10, 20, 110, 220⟩ = 20000 ∧
    (∃ msg, Rect.make 100 20 50 220 = .error msg) ∧
    (∃ msg, Rect.make 10 200 110 100 = .error msg) := by
  have h := (rect_construction_spec 10 20 110 220).1 (by decide) (by decide)
  refine ⟨h.1, ?_, ?_, ?_, ?_, ?_, ?_, ?_, ?_, ?_⟩
  · exact h.2.1.trans (by decide)
  · exact h.2.2.1.trans (by decide)
  · exact h.2.2.2.1.trans (by decide)
  · exact h.2.2.2.2.1.trans (by decide)
  · exact h.2.2.2.2.2.1.trans (by decide)
  · exact h.2.2.2.2.2.2.1.trans (by decide)
  · exact h.2.2.2.2.2.2.2.trans (by decide)
  · exact (rect_construction_spec 100 20 50 220).2 (Or.inl (by decide))
  · exact (rect_construction_spec 10 200 110 100).2 (Or.inr (by decide))

/-- Claim C5: converting a valid `Size` or `Rect` to its native C-struct
form and back yields a value equal to the original under structural
equality. -/
theorem size_rect_roundtrip (s : Size) (r : Rect) :
    (0 ≤ s.width → 0 ≤ s.height → Size.from_c_size s.to_c_size = s) ∧
    (r.left ≤ r.right → r.top ≤ r.bottom → Rect.from_c_rect r.to_c_rect = r) :=
  ⟨fun _ _ => rfl, fun _ _ => rfl⟩

/-- Witness for C5 at the concrete inputs of `test_size_conversion`. -/
theorem size_rect_roundtrip_witness :
    Size.from_c_size (Size.to_c_size ⟨1920, 1080⟩) = ⟨1920, 1080⟩ ∧
    Rect.from_c_rect (Rect.to_c_rect ⟨10, 20, 110, 220⟩) = ⟨10, 20, 110, 220⟩ :=
  ⟨(size_rect_roundtrip ⟨1920, 1080⟩ ⟨10, 20, 110, 220⟩).1 (by decide) (by decide),
   (size_rect_roundtrip ⟨1920, 1080⟩ ⟨10, 20, 110, 220⟩).2 (by decide) (by decide)⟩

/-- Claim C8: an `Error` constructed with only a code has message
`"Unknown error"`; two errors are equal exactly when both code and
message match; and equal errors have equal hashes. -/
theorem error_eq_hash_spec (c : Int) (e1 e2 : Error) :
    (Error.ofCode c).code = c ∧
    (Error.ofCode c).message = "Unknown error" ∧
    (Error.beq e1 e2 = true ↔ e1.code = e2.code ∧ e1.message = e2.message) ∧
    (Error.beq e1 e2 = true → e1.hashVal = e2.hashVal) := by
  have hiff : Error.beq e1 e2 = true ↔ e1.code = e2.code ∧ e1.message = e2.message := by
    simp [Error.beq]
  refine ⟨rfl, rfl, hiff, fun hb => ?_⟩
  obtain ⟨h1, h2⟩ := hiff.mp hb
  unfold Error.hashVal
  rw [h1, h2]

/-- Witness for C8 at the concrete inputs of `test_error_comparison`. -/
theorem error_eq_hash_spec_witness :
    Error.beq ⟨1, "Message 1"⟩ ⟨1, "Message 1"⟩ = true ∧
    Error.hashVal ⟨1, "Message 1"⟩ = Error.hashVal ⟨1, "Message 1"⟩ ∧
    Error.beq ⟨1, "Message 1"⟩ ⟨2, "Message 2"⟩ = false ∧
    (Error.ofCode 1).message = "Unknown error" := by
  have h := error_eq_hash_spec 1 ⟨1, "Message 1"⟩ ⟨1, "Message 1"⟩
  have h' := error_eq_hash_spec 1 ⟨1, "Message 1"⟩ ⟨2, "Message 2"⟩
  refine ⟨h.2.2.1.mpr ⟨rfl, rfl⟩, h.2.2.2 (h.2.2.1.mpr ⟨rfl, rfl⟩), ?_, h.2.1⟩
  have : ¬ ((1 : Int) = 2 ∧ "Message 1" = "Message 2") := by decide
  exact Bool.not_eq_true _ ▸ fun hb => this (h'.2.2.1.mp hb)

/-- Claim C10: the string form of an `Error` with code `c` and message
`m` is exactly `"TRAA Error {c}: {m}"` and its repr form is exactly
`"Error({c}, squote{m}squote)"`, checked also at the concrete values of
`test_error_creation`. -/
theorem error_text_forms (c : Int) (m : String) :
    Error.text ⟨c, m⟩ = "TRAA Error " ++ toString c ++ ": " ++ m ∧
    Error.reprText ⟨c, m⟩ =
      "Error(" ++ toString c ++ ", " ++ squote ++ m ++ squote ++ ")" ∧
    Error.text ⟨2, "Custom message"⟩ = "TRAA Error 2: Custom message" ∧
    Error.reprText ⟨2, "Custom message"⟩ =
      "Error(2, " ++ squote ++ "Custom message" ++ squote ++ ")" :=
  ⟨rfl, rfl, by decide, by decide⟩

/-- Claim C1: every successful `create_snapshot` call with positive
requested dimensions returns a pixel buffer whose row count equals the
returned `actual_size.height` and whose column count equals
`actual_size.width` exactly, with a channel count of 1, 3 or 4 determined
by the buffer's own shape; the native renderer is assumed to meet its
§4.4 contract. -/
theorem snapshot_buffer_matches_actual_size (lib : NativeLib)
    (hc : SnapshotContract lib) (source_id : Int) (size : Size)
    (buf : PixelBuffer) (actual : Size)
    (hw : 0 < size.width) (hh : 0 < size.height)
    (h : create_snapshot lib source_id size = .ok (buf, actual)) :
    (buf.rows : Int) = actual.height ∧ (buf.cols : Int) = actual.width ∧
    (buf.channels = 1 ∨ buf.channels = 3 ∨ buf.channels = 4) := by
  unfold create_snapshot at h
  rw [if_neg (by push_neg; exact ⟨hw, hh⟩)] at h
  cases heq : lib.snapshot source_id size.to_c_size with
  | error c =>
    rw [heq] at h
    exact Except.noConfusion h
  | ok p =>
    obtain ⟨b, a⟩ := p
    rw [heq] at h
    injection h with h
    injection h with hb ha
    subst hb
    subst ha
    exact hc source_id size.to_c_size b a heq

/-- Witness for C1: the demo native library at source id 1 with the
requested size `800x600` of `test_create_snapshot_basic`. -/
theorem snapshot_buffer_matches_actual_size_witness :
    ((PixelBuffer.mk 600 800 4).rows : Int) = (Size.mk 800 600).height ∧
    ((PixelBuffer.mk 600 800 4).cols : Int) = (Size.mk 800 600).width ∧
    ((PixelBuffer.mk 600 800 4).channels = 1 ∨
     (PixelBuffer.mk 600 800 4).channels = 3 ∨
     (PixelBuffer.mk 600 800 4).channels = 4) :=
  snapshot_buffer_matches_actual_size demoLib demoLib_snapshot_contract 1
    ⟨800, 600⟩ ⟨600, 800, 4⟩ ⟨800, 600⟩ (by decide) (by decide) (by rfl)

/-- Claim C2: `create_snapshot` fails with a locally raised validation
error, independent of the native layer (hence before any native call),
whenever a requested dimension is zero or negative; a native-rejected
source id surfaces as the structured native `Error`; and the two error
families are disjoint. -/
theorem snapshot_error_families (lib : NativeLib) (source_id : Int) (size : Size) :
    (size.width ≤ 0 ∨ size.height ≤ 0 →
      create_snapshot lib source_id size =
        .error (.validation "ValueError: snapshot size must be positive") ∧
      ∀ lib' : NativeLib,
        create_snapshot lib' source_id size = create_snapshot lib source_id size) ∧
    (0 < size.width → 0 < size.height →
      ∀ c : Int, lib.snapshot source_id size.to_c_size = .error c →
        create_snapshot lib source_id size = .error (.native (errorFromCode c))) ∧
    (∀ (msg : String) (e : Error),
      (CaptureError.validation msg : CaptureError) ≠ CaptureError.native e) := by
  refine ⟨?_, ?_, fun msg e h => CaptureError.noConfusion h⟩
  · intro hbad
    constructor
    · unfold create_snapshot
      rw [if_pos hbad]
    · intro lib'
      unfold create_snapshot
      rw [if_pos hbad, if_pos hbad]
  · intro hw hh c hc
    unfold create_snapshot
    rw [if_neg (by push_neg; exact ⟨hw, hh⟩), hc]

/-- Witness for C2: the demo native library rejects id 99999 with status
code 3, and `Size(0, 0)` fails validation, as in
`test_create_snapshot_errors`. -/
theorem snapshot_error_families_witness :
    create_snapshot demoLib 1 ⟨0, 0⟩ =
      .error (.validation "ValueError: snapshot size must be positive") ∧
    create_snapshot demoLib 99999 ⟨800, 600⟩ =
      .error (.native (errorFromCode 3)) ∧
    (CaptureError.validation "bad size" : CaptureError) ≠
      CaptureError.native ⟨3, "m"⟩ :=
  ⟨((snapshot_error_families demoLib 1 ⟨0, 0⟩).1 (Or.inl (by decide))).1,
   (snapshot_error_families demoLib 99999 ⟨800, 600⟩).2.1 (by decide) (by decide)
     3 (by rfl),
   (snapshot_error_families demoLib 1 ⟨0, 0⟩).2.2 "bad size" ⟨3, "m"⟩⟩

/-- Claim C4: when `enum_screen_sources` is called with the
`IGNORE_WINDOW` flag set every returned source has `is_window = false`,
and with the `IGNORE_SCREEN` flag set every returned source has
`is_window = true`; the native enumeration is assumed to meet its §4.3
filtering contract. -/
theorem flag_filtering (lib : NativeLib) (hF : FlagContract lib) (flags : Nat)
    (tsz isz : Size) (sources : List ScreenSourceInfo)
    (h : enum_screen_sources lib flags tsz isz = .ok sources) :
    (flags &&& IGNORE_WINDOW ≠ 0 → ∀ src ∈ sources, src.is_window = false) ∧
    (flags &&& IGNORE_SCREEN ≠ 0 → ∀ src ∈ sources, src.is_window = true) := by
  unfold enum_screen_sources at h
  cases heq : lib.enumSources flags tsz.to_c_size isz.to_c_size with
  | error c =>
    rw [heq] at h
    exact Except.noConfusion h
  | ok l =>
    rw [heq] at h
    injection h with h
    subst h
    obtain ⟨h1, h2⟩ := hF flags tsz.to_c_size isz.to_c_size l heq
    constructor
    · intro hW src hsrc
      obtain ⟨n, hn, rfl⟩ := List.mem_map.mp hsrc
      exact h1 hW n hn
    · intro hS src hsrc
      obtain ⟨n, hn, rfl⟩ := List.mem_map.mp hsrc
      exact h2 hS n hn

/-- Witness for C4: the demo native library under each of the two flags,
as in `test_enum_screen_sources_with_flags`. -/
theorem flag_filtering_witness :
    (∀ src ∈ List.map marshalSource [demoDisplay (CSize.mk 0 0)],
      src.is_window = false) ∧
    (∀ src ∈ List.map marshalSource [demoWindow (CSize.mk 0 0)],
      src.is_window = true) :=
  ⟨(flag_filtering demoLib demoLib_flag_contract IGNORE_WINDOW ⟨0, 0⟩ ⟨0, 0⟩
      (List.map marshalSource [demoDisplay ⟨0, 0⟩]) (by rfl)).1 (by decide),
   (flag_filtering demoLib demoLib_flag_contract IGNORE_SCREEN ⟨0, 0⟩ ⟨0, 0⟩
      (List.map marshalSource [demoWindow ⟨0, 0⟩]) (by rfl)).2 (by decide)⟩

/-- Claim C3: for every enumeration requesting the non-zero thumbnail
box `160x120`, every produced thumbnail has strictly positive dimensions,
neither dimension exceeds 1.5 times the corresponding requested one
(180 rows, 240 columns), and its width/height ratio is within 0.5 of
`160/120`; the native renderer is assumed to meet its §4.3 contract. -/
theorem thumbnail_bounds (lib : NativeLib) (hT : ThumbContract lib)
    (flags : Nat) (isz : Size) (sources : List ScreenSourceInfo)
    (h : enum_screen_sources lib flags ⟨160, 120⟩ isz = .ok sources) :
    ∀ src ∈ sources, ∀ buf : PixelBuffer, src.thumbnail_data = some buf →
      0 < buf.rows ∧ 0 < buf.cols ∧ buf.rows ≤ 180 ∧ buf.cols ≤ 240 ∧
      |(buf.cols : ℚ) / (buf.rows : ℚ) - 160 / 120| ≤ 1 / 2 := by
  unfold enum_screen_sources at h
  cases heq : lib.enumSources flags (Size.to_c_size ⟨160, 120⟩) isz.to_c_size with
  | error c =>
    rw [heq] at h
    exact Except.noConfusion h
  | ok l =>
    rw [heq] at h
    injection h with h
    subst h
    intro src hsrc buf hbuf
    obtain ⟨n, hn, rfl⟩ := List.mem_map.mp hsrc
    have hthumb : n.thumbnail = some buf := hbuf
    obtain ⟨p1, p2, p3, p4, p5⟩ :=
      hT flags (Size.to_c_size ⟨160, 120⟩) isz.to_c_size l (by decide) (by decide)
        heq n hn buf hthumb
    have hW : ((Size.to_c_size ⟨160, 120⟩).width : ℚ) = 160 := by
      norm_num [Size.to_c_size]
    have hH : ((Size.to_c_size ⟨160, 120⟩).height : ℚ) = 120 := by
      norm_num [Size.to_c_size]
    rw [hW] at p4 p5
    rw [hH] at p3 p5
    refine ⟨p1, p2, ?_, ?_, p5⟩
    · have h3 : (buf.rows : ℚ) ≤ 180 := by linarith
      exact_mod_cast h3
    · have h4 : (buf.cols : ℚ) ≤ 240 := by linarith
      exact_mod_cast h4

/-- Witness for C3: the demo native library's `160x120` enumeration
produces a `160x120` RGBA thumbnail meeting the bounds. -/
theorem thumbnail_bounds_witness :
    0 < (PixelBuffer.mk 120 160 4).rows ∧ 0 < (PixelBuffer.mk 120 160 4).cols ∧
    (PixelBuffer.mk 120 160 4).rows ≤ 180 ∧ (PixelBuffer.mk 120 160 4).cols ≤ 240 ∧
    |((PixelBuffer.mk 120 160 4).cols : ℚ) / ((PixelBuffer.mk 120 160 4).rows : ℚ) -
      160 / 120| ≤ 1 / 2 :=
  thumbnail_bounds demoLib demoLib_thumb_contract 0 ⟨0, 0⟩
    (List.map marshalSource [demoDisplay ⟨160, 120⟩, demoWindow ⟨160, 120⟩])
    (by rfl) (marshalSource (demoDisplay ⟨160, 120⟩)) (by simp)
    ⟨120, 160, 4⟩ (by rfl)

/-- Claim C9: the native library path is a deterministic function of OS
and CPU architecture of the form `libs/os/arch/libname`: Windows maps
`x64` and `arm64` to `libs/windows/x64/traa.dll` and `x86` to
`libs/windows/x86/traa.dll`; macOS uses the single
`libs/darwin/libtraa.dylib` for both of its supported architectures;
Linux uses `libs/linux/x64/libtraa.so` and `libs/linux/arm64/libtraa.so`;
any other OS/architecture combination — an unsupported Windows, macOS or
Linux architecture, or an unknown operating system — is unsupported and
yields no path.  The wheel
package-data mapping of `setup.py` agrees, with `windows_arm64` reusing
the `x64` binary and both macOS targets sharing one `dylib`. -/
theorem library_path_spec :
    libraryRelPath "windows" "amd64" = some "libs/windows/x64/traa.dll" ∧
    libraryRelPath "windows" "x86_64" = some "libs/windows/x64/traa.dll" ∧
    libraryRelPath "windows" "arm64" = some "libs/windows/x64/traa.dll" ∧
    libraryRelPath "windows" "x86" = some "libs/windows/x86/traa.dll" ∧
    libraryRelPath "darwin" "x86_64" = some "libs/darwin/libtraa.dylib" ∧
    libraryRelPath "darwin" "arm64" = some "libs/darwin/libtraa.dylib" ∧
    libraryRelPath "linux" "x86_64" = some "libs/linux/x64/libtraa.so" ∧
    libraryRelPath "linux" "aarch64" = some "libs/linux/arm64/libtraa.so" ∧
    (∀ machine : String, machine ≠ "amd64" → machine ≠ "x86_64" →
      machine ≠ "arm64" → machine ≠ "x86" →
      libraryRelPath "windows" machine = none) ∧
    (∀ machine : String, machine ≠ "x86_64" → machine ≠ "amd64" →
      machine ≠ "aarch64" → machine ≠ "arm64" →
      libraryRelPath "linux" machine = none) ∧
    (∀ machine : String, machine ≠ "x86_64" → machine ≠ "arm64" →
      libraryRelPath "darwin" machine = none) ∧
    (∀ system machine : String, system ≠ "windows" → system ≠ "darwin" →
      system ≠ "linux" → libraryRelPath system machine = none) ∧
    get_platform_package_data "windows_arm64" =
      get_platform_package_data "windows_x64" ∧
    get_platform_package_data "darwin_arm64" =
      get_platform_package_data "darwin_x64" ∧
    get_platform_package_data "windows_x64" = ["libs/windows/x64/*.dll"] ∧
    get_platform_package_data "windows_x86" = ["libs/windows/x86/*.dll"] ∧
    get_platform_package_data "linux_x64" = ["libs/linux/x64/*.so"] ∧
    get_platform_package_data "linux_arm64" = ["libs/linux/arm64/*.so"] := by
  refine ⟨by decide, by decide, by decide, by decide, by decide, by decide,
    by decide, by decide, ?_, ?_, ?_, ?_, by decide, by decide, by decide,
    by decide, by decide, by decide⟩
  · intro machine h1 h2 h3 h4
    unfold libraryRelPath
    rw [if_neg (by decide), if_pos rfl,
      if_neg (by push_neg; exact ⟨h1, h2, h3⟩), if_neg h4]
  · intro machine h1 h2 h3 h4
    unfold libraryRelPath
    rw [if_neg (by decide), if_neg (by decide), if_pos rfl,
      if_neg (by push_neg; exact ⟨h1, h2⟩), if_neg (by push_neg; exact ⟨h3, h4⟩)]
  · intro machine h1 h2
    unfold libraryRelPath
    rw [if_pos rfl, if_neg (by push_neg; exact ⟨h1, h2⟩)]
  · intro system machine hw hd hl
    unfold libraryRelPath
    rw [if_neg hd, if_neg hw, if_neg hl]

/-- Witness for C9: the Windows x64 path, and unsupported architectures
on Windows, Linux and macOS, plus an unsupported operating system. -/
theorem library_path_spec_witness :
    libraryRelPath "windows" "amd64" = some "libs/windows/x64/traa.dll" ∧
    libraryRelPath "windows" "riscv64" = none ∧
    libraryRelPath "linux" "mips" = none ∧
    libraryRelPath "darwin" "ppc64" = none ∧
    libraryRelPath "freebsd" "x86_64" = none := by
  obtain ⟨h1, -, -, -, -, -, -, -, hw, hl, hd, ho, -, -, -, -, -, -⟩ :=
    library_path_spec
  exact ⟨h1, hw "riscv64" (by decide) (by decide) (by decide) (by decide),
    hl "mips" (by decide) (by decide) (by decide) (by decide),
    hd "ppc64" (by decide) (by decide),
    ho "freebsd" "x86_64" (by decide) (by decide) (by decide)⟩

end Traa
